import Mathlib

/-!
Shallow embedding of `src/photo_organizer_prototype.py` (AI-Powered Photo
Organizer prototype) and verification of the specification's claims about
its metadata store, search matching and ingestion pipeline.

Conventions of the embedding:
* Python strings are Lean `String`s; `str.lower()` is `lowerStr` (ASCII
  case folding, enough for every string the program manipulates),
  `str.split()` is `pySplit`, the substring test `a in b` is `hasSub`,
  `os.path.basename` is `basename`.
* A Python `dict` (with its insertion-order semantics: assigning to an
  existing key keeps its position, a new key is appended) is an
  association list manipulated through `dictGet` / `dictPut`.
* The on-disk JSON snapshot `mock_dynamodb.json` is modelled at the value
  level as `Option Table` (the JSON encode/decode round trip is the
  identity on the data it stores), and at the level of file-system
  operations as a list of `FsOp` events for the atomicity analysis.
* `datetime.now()` and the detector capability (`MockRekognition` /
  `LabelDetector`, whose confidences are produced by `random.uniform` and
  discarded at line 140 of the source) are external inputs: the pipeline
  takes the timestamp and the `detect` function as parameters.
-/

/-- Python `str.lower()` restricted to its ASCII action (every identifier,
tag and query in the program is ASCII). -/
def lowerStr (s : String) : String :=
  String.mk (s.data.map Char.toLower)

/-- Worker for `pySplit`: splits a character list on whitespace runs,
accumulating the current (reversed) word in `acc`; empty words are dropped,
exactly as Python `str.split()` with no separator does. -/
def splitWs : List Char → List Char → List String
  | [], acc => if acc.isEmpty then [] else [String.mk acc.reverse]
  | c :: cs, acc =>
    if c.isWhitespace then
      (if acc.isEmpty then [] else [String.mk acc.reverse]) ++ splitWs cs []
    else
      splitWs cs (c :: acc)

/-- Python `str.split()` (no argument): split on whitespace, dropping empty
tokens. -/
def pySplit (s : String) : List String :=
  splitWs s.data []

/-- Bool test for `need` being a leading segment of `hay` (helper for the
substring test). -/
def leadsWith : List Char → List Char → Bool
  | [], _ => true
  | _ :: _, [] => false
  | a :: as, b :: bs => a == b && leadsWith as bs

/-- Python's substring operator `need in hay` on strings, on the underlying
character lists: `need` occurs contiguously inside `hay`. -/
def hasSub (need : List Char) : List Char → Bool
  | [] => leadsWith need []
  | c :: cs => leadsWith need (c :: cs) || hasSub need cs

/-- Worker for `basename`: keeps the characters seen since the last `/`. -/
def basenameAux : List Char → List Char → List Char
  | [], acc => acc.reverse
  | c :: cs, acc => if c == '/' then basenameAux cs [] else basenameAux cs (c :: acc)

/-- `os.path.basename` (POSIX): the part of the path after the last `/`. -/
def basename (p : String) : String :=
  String.mk (basenameAux p.data [])

/-- Worker for `splitSep`. -/
def splitSepAux (sep : Char) : List Char → List Char → List String
  | [], acc => [String.mk acc.reverse]
  | c :: cs, acc =>
    if c == sep then String.mk acc.reverse :: splitSepAux sep cs []
    else splitSepAux sep cs (c :: acc)

/-- Python `str.split(sep)` with an explicit one-character separator
(empty segments are kept, as in Python). -/
def splitSep (sep : Char) (s : String) : List String :=
  splitSepAux sep s.data []

/-- Modelled from the spec: "a token obtained by splitting the record's
`id` on its path separator and lower-casing each segment" (§4.4).  The
source's `search` never computes these segments — this definition exists to
state the claims that talk about whole path segments. -/
def segmentTokens (pid : String) : List String :=
  (splitSep '/' pid).map lowerStr

/-- Lookup in a Python-dict-as-association-list (first, and with the nodup
invariant only, binding for the key). -/
def dictGet {β : Type} : List (String × β) → String → Option β
  | [], _ => none
  | p :: rest, k => if p.1 = k then some p.2 else dictGet rest k

/-- Python `d[k] = v` on an insertion-ordered dict: replace the binding in
place when the key is present, append it otherwise. -/
def dictPut {β : Type} : List (String × β) → String → β → List (String × β)
  | [], k, v => [(k, v)]
  | p :: rest, k, v =>
    if p.1 = k then (k, v) :: rest else p :: dictPut rest k v

/-- The metadata dictionary built by `upload_and_process`
(src/photo_organizer_prototype.py lines 143-150) and stored in
`MockDynamoDB`. -/
structure Item where
  photo_id : String
  user_id : String
  timestamp : String
  tags : List String
  original_filename : String
  location : String
deriving DecidableEq

/-- The in-memory table of `MockDynamoDB`: a Python dict keyed by
`photo_id`. -/
abbrev Table := List (String × Item)

/-- One detected label as returned by the detector capability (the source's
dict `{"Name": ..., "Confidence": ...}`; the confidence is random in the
mock and only the name is ever read, so it is modelled abstractly). -/
structure LabelResult where
  name : String
  confidence : Nat
deriving DecidableEq

/-- Failure of the detector capability (`DetectionError` in the spec's
taxonomy; the pipeline has no handler for it, so it propagates). -/
inductive DetectionError where
  | failure (msg : String)
deriving DecidableEq

/-- State of `MockDynamoDB` together with its durable snapshot file:
`table` is `self.table`, `disk` is the content of `DB_FILE`
(`none` when the file does not exist). -/
structure MockDynamoDB where
  table : Table
  disk : Option Table
deriving DecidableEq

/-- `MockDynamoDB.__init__` (lines 64-68): start empty, then load the
durable snapshot when the file exists. -/
def initDB (disk : Option Table) : MockDynamoDB :=
  { table := match disk with | none => [] | some t => t
    disk := disk }

/-- `MockDynamoDB.put_item` (lines 70-74): write the item under its
`photo_id` key and persist the whole table via `_save` (lines 82-84, which
dump `self.table` to `DB_FILE`). -/
def put_item (db : MockDynamoDB) (item : Item) : MockDynamoDB :=
  let table' := dictPut db.table item.photo_id item
  { table := table', disk := some table' }

/-- `MockDynamoDB.get_item` (lines 76-77): `self.table.get(photo_id)`. -/
def get_item (db : MockDynamoDB) (photo_id : String) : Option Item :=
  dictGet db.table photo_id

/-- `MockDynamoDB.scan` (lines 79-80): `list(self.table.values())`. -/
def scan (db : MockDynamoDB) : List Item :=
  db.table.map Prod.snd

/-- The inner loop of `MockOpenSearch.search` (lines 98-111): an item
matches when some query token is equal to a lower-cased tag entry
(`token in item_tags`, list membership) or occurs as a substring of the
lower-cased id (`token in item_id`, string containment). -/
def itemMatches (query_tokens : List String) (item : Item) : Bool :=
  query_tokens.any fun token =>
    (item.tags.map lowerStr).contains token ||
      hasSub token.data (lowerStr item.photo_id).data

/-- `MockOpenSearch.search` (lines 91-113): tokenize the query by
lower-casing and whitespace-splitting, then return the matching items in
scan order. -/
def search (db : MockDynamoDB) (query_text : String) : List Item :=
  let query_tokens := pySplit (lowerStr query_text)
  (scan db).filter (itemMatches query_tokens)

/-- State of the whole `PhotoOrganizerSystem`: the metadata store plus the
mock S3 bucket (keys mapped to the source path last uploaded under them;
`MockOpenSearch` holds no state of its own, it reads `db`). -/
structure PhotoOrganizerSystem where
  db : MockDynamoDB
  s3 : List (String × String)
deriving DecidableEq

/-- A fresh system with no durable snapshot on disk (`DB_FILE` absent) and
an empty bucket. -/
def freshSystem : PhotoOrganizerSystem :=
  { db := initDB none, s3 := [] }

/-- `PhotoOrganizerSystem.upload_and_process` (lines 124-154).  The
detector capability and the wall clock are the two external inputs, so the
embedding takes `detect` and `timestamp` as parameters; the source wires in
`MockRekognition.detect_labels`, which never fails, and `datetime.now()`.
Steps, in source order: compute the basename and the S3 key, upload to the
bucket, detect labels (a raised `DetectionError` propagates here, before
any write to the store), extract the tag names, build the metadata dict and
`put_item` it. -/
def upload_and_process
    (detect : String → Except DetectionError (List LabelResult))
    (sys : PhotoOrganizerSystem) (file_path : String) (user_id : String)
    (timestamp : String) :
    PhotoOrganizerSystem × Except DetectionError Item :=
  let filename := basename file_path
  let s3_key := user_id ++ "/" ++ filename
  let sys1 := { sys with s3 := dictPut sys.s3 s3_key file_path }
  match detect s3_key with
  | Except.error e => (sys1, Except.error e)
  | Except.ok labels_data =>
    let tags := labels_data.map LabelResult.name
    let metadata : Item :=
      { photo_id := s3_key
        user_id := user_id
        timestamp := timestamp
        tags := tags
        original_filename := filename
        location := "Unknown" }
    ({ sys1 with db := put_item sys1.db metadata }, Except.ok metadata)

/-- The durable snapshot path (`DB_FILE`, line 11; the directory part is
irrelevant to the claims). -/
def DB_FILE : String := "mock_dynamodb.json"

/-- File-system operations visible in `MockDynamoDB._save` and available to
an atomic-rename implementation: a truncating open (`open(path, "w")`), a
full write of the serialized table, and an atomic rename. -/
inductive FsOp where
  | openTrunc (path : String)
  | writeAll (path : String) (content : Table)
  | rename (src : String) (dst : String)
deriving DecidableEq

/-- The event trace of `MockDynamoDB._save` (lines 82-84):
`open(DB_FILE, "w")` truncates the snapshot in place, then `json.dump`
writes the new table into it.  No other path is touched and no rename is
performed. -/
def saveOps (t : Table) : List FsOp :=
  [FsOp.openTrunc DB_FILE, FsOp.writeAll DB_FILE t]

/-- Effect of one file-system operation on the file contents (paths mapped
to parsed snapshot contents). -/
def applyOp (fs : List (String × Table)) (op : FsOp) : List (String × Table) :=
  match op with
  | FsOp.openTrunc p => dictPut fs p []
  | FsOp.writeAll p t => dictPut fs p t
  | FsOp.rename src dst =>
    match dictGet fs src with
    | none => fs
    | some c => dictPut (fs.filter (fun q => decide (q.1 ≠ src))) dst c

/-- Run a trace of file-system operations. -/
def runOps (fs : List (String × Table)) (ops : List FsOp) : List (String × Table) :=
  ops.foldl applyOp fs

/-- A trace installs the snapshot by a temp-location-then-swap pattern only
if it contains a rename into the durable path. -/
def usesTempSwap (ops : List FsOp) : Bool :=
  ops.any fun op =>
    match op with
    | FsOp.rename _ dst => dst == DB_FILE
    | _ => false

/-- Well-formedness of a table as the program ever produces it: keys are
distinct (a Python dict) and every item is stored under its own
`photo_id` (as `put_item` does). -/
def wfTable (t : Table) : Prop :=
  (t.map Prod.fst).Nodup ∧ ∀ p ∈ t, (p.2).photo_id = p.1

/-- The metadata record `upload_and_process` builds for a given user, file
path, timestamp and detection result (lines 143-150), factored out so that
lemmas can name the record the pipeline persists. -/
def mkItem (user_id file_path timestamp : String)
    (labels_data : List LabelResult) : Item :=
  { photo_id := user_id ++ "/" ++ basename file_path
    user_id := user_id
    timestamp := timestamp
    tags := labels_data.map LabelResult.name
    original_filename := basename file_path
    location := "Unknown" }

/-- Concrete record: a photo of user `u1` with the single tag
`"Person"`. -/
def Rpng : Item :=
  { photo_id := "u1/photo.png", user_id := "u1", timestamp := "t0",
    tags := ["Person"], original_filename := "photo.png",
    location := "Unknown" }

/-- Concrete store holding only `Rpng`. -/
def db1 : MockDynamoDB :=
  { table := [("u1/photo.png", Rpng)], disk := none }

/-- Concrete record: a photo of user `u1` carrying the multi-word tag
`"Error Message"`. -/
def Rmsg : Item :=
  { photo_id := "u1/a.png", user_id := "u1", timestamp := "t0",
    tags := ["Error Message"], original_filename := "a.png",
    location := "Unknown" }

/-- Concrete store holding only `Rmsg`. -/
def dbm : MockDynamoDB :=
  { table := [("u1/a.png", Rmsg)], disk := none }

/-- A detector capability returning the labels of the spec's
`photo_error.png` scenario. -/
def detectC5 : String → Except DetectionError (List LabelResult) :=
  fun _ =>
    Except.ok [{ name := "Person", confidence := 90 },
               { name := "Error Message", confidence := 95 },
               { name := "Computer", confidence := 92 }]

/-- The system state after ingesting `photo_error.png` for user `u1` with
the scenario detector. -/
def sys5 : PhotoOrganizerSystem :=
  (upload_and_process detectC5 freshSystem "photo_error.png" "u1" "t1").1

/-- The record the `photo_error.png` scenario is expected to persist. -/
def item5 : Item :=
  { photo_id := "u1/photo_error.png", user_id := "u1", timestamp := "t1",
    tags := ["Person", "Error Message", "Computer"],
    original_filename := "photo_error.png", location := "Unknown" }

/-- A detector capability that always fails (a `DetectionError`, e.g. a
timeout). -/
def detFail : String → Except DetectionError (List LabelResult) :=
  fun _ => Except.error (DetectionError.failure "timeout")

/-- A detector capability returning one fixed label `"A"`. -/
def detA : String → Except DetectionError (List LabelResult) :=
  fun _ => Except.ok [{ name := "A", confidence := 90 }]

/-- A detector capability returning one fixed label `"B"`. -/
def detB : String → Except DetectionError (List LabelResult) :=
  fun _ => Except.ok [{ name := "B", confidence := 91 }]

/-- A concrete prior snapshot content for the persistence analysis. -/
def tableOld : Table := [("u1/a.png", Rmsg)]

/-- A concrete new snapshot content for the persistence analysis. -/
def tableNew : Table := [("u1/a.png", Rmsg), ("u1/photo.png", Rpng)]

/-- A file system whose durable snapshot currently holds `tableOld`. -/
def fs0 : List (String × Table) := [(DB_FILE, tableOld)]

/-- `dictGet` after `dictPut` at the same key finds the new value. -/
theorem dictGet_dictPut_self {β : Type} (t : List (String × β)) (k : String)
    (v : β) : dictGet (dictPut t k v) k = some v := by
  induction t with
  | nil => simp [dictPut, dictGet]
  | cons p rest ih =>
    by_cases h : p.1 = k
    · simp [dictPut, h, dictGet]
    · simp [dictPut, h, dictGet, ih]

/-- The keys present after a `dictPut` are the old keys plus the written
key. -/
theorem mem_keys_dictPut {β : Type} (t : List (String × β)) (k k' : String)
    (v : β) :
    k' ∈ (dictPut t k v).map Prod.fst ↔ k' ∈ t.map Prod.fst ∨ k' = k := by
  induction t with
  | nil => simp [dictPut]
  | cons p rest ih =>
    by_cases h : p.1 = k
    · subst h
      simp [dictPut]
      tauto
    · simp [dictPut, h, ih]
      tauto

/-- `dictPut` keeps the keys duplicate-free. -/
theorem nodup_keys_dictPut {β : Type} (t : List (String × β)) (k : String)
    (v : β) (hnd : (t.map Prod.fst).Nodup) :
    ((dictPut t k v).map Prod.fst).Nodup := by
  induction t with
  | nil => simp [dictPut]
  | cons p rest ih =>
    rw [List.map_cons, List.nodup_cons] at hnd
    by_cases h : p.1 = k
    · subst h
      simpa [dictPut, List.nodup_cons] using hnd
    · rw [dictPut]
      simp only [if_neg h, List.map_cons, List.nodup_cons]
      refine ⟨?_, ih hnd.2⟩
      rw [mem_keys_dictPut]
      rintro (hmem | hEq)
      · exact hnd.1 hmem
      · exact h hEq

/-- `dictPut` keeps every item stored under its own id when the written
item is (which is how `put_item` always calls it). -/
theorem consistent_dictPut (k : String) (v : Item) (hv : v.photo_id = k) :
    ∀ t : Table, (∀ p ∈ t, (p.2).photo_id = p.1) →
      ∀ p ∈ dictPut t k v, (p.2).photo_id = p.1 := by
  intro t
  induction t with
  | nil =>
    intro _ p hp
    simp [dictPut] at hp
    subst hp
    exact hv
  | cons q rest ih =>
    intro hcons p hp
    rw [dictPut] at hp
    by_cases h : q.1 = k
    · rw [if_pos h] at hp
      rcases List.mem_cons.mp hp with hEq | hmem
      · subst hEq; exact hv
      · exact hcons p (List.mem_cons_of_mem q hmem)
    · rw [if_neg h] at hp
      rcases List.mem_cons.mp hp with hEq | hmem
      · subst hEq; exact hcons p (List.mem_cons_self p rest)
      · exact ih (fun r hr => hcons r (List.mem_cons_of_mem q hr)) p hmem

/-- `dictPut` preserves table well-formedness when the written item is
stored under its own id. -/
theorem wfTable_dictPut (t : Table) (k : String) (v : Item)
    (hwf : wfTable t) (hv : v.photo_id = k) : wfTable (dictPut t k v) :=
  ⟨nodup_keys_dictPut t k v hwf.1, consistent_dictPut k v hv t hwf.2⟩

/-- In a well-formed table, after writing `v` under its id `k`, exactly one
scanned record carries the id `k`. -/
theorem countP_scan_dictPut (k : String) (v : Item) (hv : v.photo_id = k) :
    ∀ t : Table, wfTable t →
      ((dictPut t k v).map Prod.snd).countP (fun r => decide (r.photo_id = k))
        = 1 := by
  intro t
  induction t with
  | nil =>
    intro _
    simp [dictPut, List.countP_cons, hv]
  | cons p rest ih =>
    intro hwf
    have hnd := hwf.1
    rw [List.map_cons, List.nodup_cons] at hnd
    have hwfrest : wfTable rest :=
      ⟨hnd.2, fun r hr => hwf.2 r (List.mem_cons_of_mem p hr)⟩
    by_cases h : p.1 = k
    · rw [dictPut, if_pos h]
      rw [List.map_cons, List.countP_cons_of_pos _ _ (by simp [hv])]
      have hzero :
          (rest.map Prod.snd).countP (fun r => decide (r.photo_id = k)) = 0 := by
        rw [List.countP_eq_zero]
        intro r hr
        rcases List.mem_map.mp hr with ⟨q, hq, hEq⟩
        subst hEq
        have hqid : q.2.photo_id = q.1 := hwf.2 q (List.mem_cons_of_mem p hq)
        rw [hqid]
        simp only [decide_eq_true_eq]
        intro hqk
        have hq1 : q.1 ∈ rest.map Prod.fst := List.mem_map_of_mem Prod.fst hq
        rw [hqk, ← h] at hq1
        exact hnd.1 hq1
      rw [hzero]
    · rw [dictPut, if_neg h]
      rw [List.map_cons, List.countP_cons_of_neg, ih hwfrest]
      have hpid : p.2.photo_id = p.1 := hwf.2 p (List.mem_cons_self p rest)
      simp [hpid, h]

/-- The item-level match test of `search`, spelled out: some query token is
a lower-cased tag entry or a substring of the lower-cased id. -/
theorem itemMatches_iff (toks : List String) (item : Item) :
    itemMatches toks item = true ↔
      ∃ tok ∈ toks, (item.tags.map lowerStr).contains tok = true ∨
        hasSub tok.data (lowerStr item.photo_id).data = true := by
  simp [itemMatches, List.any_eq_true, Bool.or_eq_true]

/-- Membership in a `search` result, reduced to scan membership plus the
match test. -/
theorem mem_search_iff (db : MockDynamoDB) (q : String) (item : Item) :
    item ∈ search db q ↔
      item ∈ scan db ∧ itemMatches (pySplit (lowerStr q)) item = true := by
  show item ∈ (scan db).filter (itemMatches (pySplit (lowerStr q))) ↔ _
  exact List.mem_filter

/-- Evaluation of `upload_and_process` when the detector succeeds: the
bucket gains the blob, the store gains the record built by the pipeline,
and that record is returned. -/
theorem upload_ok (detect : String → Except DetectionError (List LabelResult))
    (sys : PhotoOrganizerSystem) (fp uid ts : String) (l : List LabelResult)
    (h : detect (uid ++ "/" ++ basename fp) = Except.ok l) :
    upload_and_process detect sys fp uid ts =
      ({ db := put_item sys.db (mkItem uid fp ts l)
         s3 := dictPut sys.s3 (uid ++ "/" ++ basename fp) fp },
       Except.ok (mkItem uid fp ts l)) := by
  simp only [upload_and_process]
  rw [h]
  rfl

/-- Evaluation of `upload_and_process` when the detector fails: the error
propagates, the bucket already holds the blob, the store is untouched. -/
theorem upload_err (detect : String → Except DetectionError (List LabelResult))
    (sys : PhotoOrganizerSystem) (fp uid ts : String) (e : DetectionError)
    (h : detect (uid ++ "/" ++ basename fp) = Except.error e) :
    upload_and_process detect sys fp uid ts =
      ({ db := sys.db, s3 := dictPut sys.s3 (uid ++ "/" ++ basename fp) fp },
       Except.error e) := by
  simp only [upload_and_process]
  rw [h]

/-- A store that equals its own reload stays so under any run of
`put_item`s (the reload of the snapshot `put_item` just wrote is the table
it just built). -/
theorem initDB_foldl_put (items : List Item) (st : MockDynamoDB)
    (h : initDB st.disk = st) :
    initDB ((items.foldl put_item st).disk) = items.foldl put_item st := by
  induction items generalizing st with
  | nil => exact h
  | cons it rest ih =>
    exact ih (put_item st it) rfl

/-- C1 counterexample: the claim is false as stated.  For the stored record
`Rpng` (id `u1/photo.png`, tags `["Person"]`) and the query `"png"`, the
only query token `"png"` equals no lower-cased path segment of the id and
no lower-cased tag entry, yet `search` returns the record: the id match is
a substring match, not a whole-segment match. -/
theorem c1_counterexample :
    pySplit (lowerStr "png") = ["png"] ∧
    (segmentTokens Rpng.photo_id).contains "png" = false ∧
    (Rpng.tags.map lowerStr).contains "png" = false ∧
    search db1 "png" = [Rpng] := by
  decide

/-- C1 (amended): a record is returned by `search` exactly when it is in
the scan and some query token either equals a lower-cased tag entry or
occurs as a contiguous substring of the lower-cased id — whole-segment
equality is a special case of the substring test, not the criterion. -/
theorem c1_id_match_is_substring_match (db : MockDynamoDB) (q : String)
    (item : Item) :
    item ∈ search db q ↔
      item ∈ scan db ∧ ∃ tok ∈ pySplit (lowerStr q),
        (item.tags.map lowerStr).contains tok = true ∨
          hasSub tok.data (lowerStr item.photo_id).data = true := by
  rw [mem_search_iff, itemMatches_iff]

/-- C2: if the detector fails during ingest, the error propagates before
any write to the metadata store — the store after the failed call equals
the store before it, so every `get` (in particular of that id) and the
table are unchanged. -/
theorem c2_detection_error_leaves_store_unchanged
    (detect : String → Except DetectionError (List LabelResult))
    (sys : PhotoOrganizerSystem) (fp uid ts : String) (e : DetectionError)
    (h : detect (uid ++ "/" ++ basename fp) = Except.error e) :
    (upload_and_process detect sys fp uid ts).2 = Except.error e ∧
    ((upload_and_process detect sys fp uid ts).1).db = sys.db ∧
    ∀ pid, get_item ((upload_and_process detect sys fp uid ts).1).db pid
      = get_item sys.db pid := by
  rw [upload_err detect sys fp uid ts e h]
  exact ⟨rfl, rfl, fun _ => rfl⟩

/-- C2 witness: a concrete failing ingest of `a.png` for `u1` from the
fresh system leaves the store untouched. -/
theorem c2_witness :
    detFail ("u1" ++ "/" ++ basename "a.png")
        = Except.error (DetectionError.failure "timeout") ∧
    ((upload_and_process detFail freshSystem "a.png" "u1" "t1").1).db
        = freshSystem.db :=
  ⟨rfl,
   (c2_detection_error_leaves_store_unchanged detFail freshSystem "a.png"
      "u1" "t1" (DetectionError.failure "timeout") rfl).2.1⟩

/-- C3 counterexample: the claim is false as stated.  `_save` performs no
write to a temporary location followed by a swap: its trace contains no
rename into the durable path, and a crash after its first operation (the
truncating `open(DB_FILE, "w")`) leaves a reader observing an empty
snapshot that is neither the old nor the new table. -/
theorem c3_counterexample :
    usesTempSwap (saveOps tableNew) = false ∧
    dictGet (runOps fs0 ((saveOps tableNew).take 1)) DB_FILE = some [] ∧
    some ([] : Table) ≠ some tableOld ∧
    some ([] : Table) ≠ some tableNew := by
  decide

/-- C3 (amended): every persist rewrites the durable snapshot in place —
it truncates `DB_FILE` and then writes the new table into it, touching no
temporary location and performing no swap; after the full trace the file
holds the new snapshot, but between truncation and write a reader observes
an empty snapshot. -/
theorem c3_save_rewrites_snapshot_in_place (t : Table)
    (fs : List (String × Table)) :
    usesTempSwap (saveOps t) = false ∧
    dictGet (runOps fs (saveOps t)) DB_FILE = some t ∧
    dictGet (runOps fs ((saveOps t).take 1)) DB_FILE = some [] := by
  refine ⟨rfl, ?_, ?_⟩
  · show dictGet (dictPut (dictPut fs DB_FILE []) DB_FILE t) DB_FILE = some t
    exact dictGet_dictPut_self _ _ _
  · show dictGet (dictPut fs DB_FILE []) DB_FILE = some []
    exact dictGet_dictPut_self _ _ _

/-- C4 counterexample: the claim is false as stated.  `"message"` is a
whitespace-delimited token of the tag entry `"Error Message"` of the
stored record `Rmsg`, yet `search "Message"` does not return `Rmsg`: tag
matching compares a query token with whole tag entries only. -/
theorem c4_counterexample :
    (pySplit (lowerStr "Error Message")).contains "message" = true ∧
    (search dbm "Message").contains Rmsg = false := by
  decide

/-- C4 (amended): for a whitespace-free query `T` that equals an entire
tag entry of a stored record case-insensitively, `search T` includes the
record.  (A token of a multi-word tag entry does not match, per the
counterexample.) -/
theorem c4_whole_tag_entry_token_matches (db : MockDynamoDB) (T : String)
    (item : Item)
    (hmem : item ∈ scan db)
    (htok : pySplit (lowerStr T) = [lowerStr T])
    (htag : (item.tags.map lowerStr).contains (lowerStr T) = true) :
    item ∈ search db T := by
  rw [mem_search_iff]
  refine ⟨hmem, (itemMatches_iff _ _).mpr ?_⟩
  refine ⟨lowerStr T, ?_, Or.inl htag⟩
  rw [htok]
  exact List.mem_singleton.mpr rfl

/-- C4 witness: the query `"Person"` equals the whole tag entry of `Rpng`
and `search` returns it. -/
theorem c4_witness :
    Rpng ∈ scan db1 ∧
    pySplit (lowerStr "Person") = [lowerStr "Person"] ∧
    (Rpng.tags.map lowerStr).contains (lowerStr "Person") = true ∧
    Rpng ∈ search db1 "Person" :=
  ⟨by decide, by decide, by decide,
   c4_whole_tag_entry_token_matches db1 "Person" Rpng (by decide) (by decide)
     (by decide)⟩

/-- C5: the `photo_error.png` scenario.  After ingesting it for `u1` with
the detector returning `["Person", "Error Message", "Computer"]`, the
stored record under `u1/photo_error.png` has exactly those tags,
`search "error"` returns exactly that record (via the id substring), and
`search "login"` returns nothing. -/
theorem c5_photo_error_scenario :
    (get_item sys5.db "u1/photo_error.png").map Item.tags
        = some ["Person", "Error Message", "Computer"] ∧
    search sys5.db "error" = [item5] ∧
    search sys5.db "login" = [] := by
  decide

/-- C6: ingesting the same `(userId, filename)` pair twice overwrites the
prior record — afterwards the scan contains exactly one record whose id is
`userId ++ "/" ++ basename filename`, and the record stored under that id
is the one built from the second detection (its tags are the second
detection's label names). -/
theorem c6_reingest_overwrites
    (sys : PhotoOrganizerSystem) (fp uid ts1 ts2 : String)
    (detect1 detect2 : String → Except DetectionError (List LabelResult))
    (l1 l2 : List LabelResult)
    (hwf : wfTable sys.db.table)
    (h1 : detect1 (uid ++ "/" ++ basename fp) = Except.ok l1)
    (h2 : detect2 (uid ++ "/" ++ basename fp) = Except.ok l2) :
    (scan ((upload_and_process detect2
        ((upload_and_process detect1 sys fp uid ts1).1) fp uid ts2).1).db).countP
        (fun r => decide (r.photo_id = uid ++ "/" ++ basename fp)) = 1 ∧
    get_item ((upload_and_process detect2
        ((upload_and_process detect1 sys fp uid ts1).1) fp uid ts2).1).db
        (uid ++ "/" ++ basename fp) = some (mkItem uid fp ts2 l2) := by
  rw [upload_ok detect1 sys fp uid ts1 l1 h1,
      upload_ok detect2 _ fp uid ts2 l2 h2]
  constructor
  · show ((dictPut (dictPut sys.db.table (uid ++ "/" ++ basename fp)
        (mkItem uid fp ts1 l1)) (uid ++ "/" ++ basename fp)
        (mkItem uid fp ts2 l2)).map Prod.snd).countP
        (fun r => decide (r.photo_id = uid ++ "/" ++ basename fp)) = 1
    exact countP_scan_dictPut (uid ++ "/" ++ basename fp)
      (mkItem uid fp ts2 l2) rfl _
      (wfTable_dictPut sys.db.table (uid ++ "/" ++ basename fp)
        (mkItem uid fp ts1 l1) hwf rfl)
  · show dictGet (dictPut (dictPut sys.db.table (uid ++ "/" ++ basename fp)
        (mkItem uid fp ts1 l1)) (uid ++ "/" ++ basename fp)
        (mkItem uid fp ts2 l2)) (uid ++ "/" ++ basename fp)
        = some (mkItem uid fp ts2 l2)
    exact dictGet_dictPut_self _ _ _

/-- C6 witness: ingesting `a.png` for `u1` twice, with labels `A` then
`B`, leaves exactly one record for `u1/a.png`. -/
theorem c6_witness :
    wfTable freshSystem.db.table ∧
    detA ("u1" ++ "/" ++ basename "a.png")
        = Except.ok [{ name := "A", confidence := 90 }] ∧
    detB ("u1" ++ "/" ++ basename "a.png")
        = Except.ok [{ name := "B", confidence := 91 }] ∧
    (scan ((upload_and_process detB
        ((upload_and_process detA freshSystem "a.png" "u1" "t1").1)
        "a.png" "u1" "t2").1).db).countP
        (fun r => decide (r.photo_id = "u1" ++ "/" ++ basename "a.png")) = 1 :=
  ⟨⟨List.nodup_nil, fun p hp => absurd hp (List.not_mem_nil p)⟩, rfl, rfl,
   (c6_reingest_overwrites freshSystem "a.png" "u1" "t1" "t2" detA detB _ _
      ⟨List.nodup_nil, fun p hp => absurd hp (List.not_mem_nil p)⟩
      rfl rfl).1⟩

/-- C7: reconstructing a `MockDynamoDB` from the durable snapshot left by
any sequence of upserts yields a store whose scan is (set-)equal to the
original store's scan. -/
theorem c7_durability_round_trip (d : Option Table) (items : List Item)
    (r : Item) :
    r ∈ scan (initDB ((items.foldl put_item (initDB d)).disk)) ↔
      r ∈ scan (items.foldl put_item (initDB d)) := by
  rw [initDB_foldl_put items (initDB d) rfl]

/-- C8: the empty query tokenizes to no tokens and matches no record —
`search ""` returns the empty sequence on every store. -/
theorem c8_empty_query_matches_nothing (db : MockDynamoDB) :
    search db "" = [] := by
  show (scan db).filter (itemMatches (pySplit (lowerStr ""))) = []
  have h0 : pySplit (lowerStr "") = [] := rfl
  rw [h0, List.filter_eq_nil_iff]
  intro a _
  simp [itemMatches]

/-- C9: if some lower-cased whitespace token of the query occurs as a
contiguous substring of a stored record's lower-cased id, `search` returns
that record — even when the token equals no tag entry and no whole path
segment. -/
theorem c9_substring_of_id_matches (db : MockDynamoDB) (q : String)
    (item : Item)
    (hmem : item ∈ scan db)
    (htok : ∃ tok ∈ pySplit (lowerStr q),
        hasSub tok.data (lowerStr item.photo_id).data = true) :
    item ∈ search db q := by
  rcases htok with ⟨tok, htok1, htok2⟩
  rw [mem_search_iff]
  exact ⟨hmem, (itemMatches_iff _ _).mpr ⟨tok, htok1, Or.inr htok2⟩⟩

/-- C9 witness: the query `"png"` is a substring of `u1/photo.png` (and
neither a tag nor a whole segment), and `search` returns `Rpng`. -/
theorem c9_witness :
    Rpng ∈ scan db1 ∧
    (∃ tok ∈ pySplit (lowerStr "png"),
        hasSub tok.data (lowerStr Rpng.photo_id).data = true) ∧
    Rpng ∈ search db1 "png" :=
  ⟨by decide, by decide,
   c9_substring_of_id_matches db1 "png" Rpng (by decide) (by decide)⟩

/-- C10: the ingestion entry point takes only a source path and a user id;
on success the stored record's `original_filename`, and the filename part
of its id `userId/filename`, are the final path component of the source
path. -/
theorem c10_stored_names_are_basename
    (detect : String → Except DetectionError (List LabelResult))
    (sys : PhotoOrganizerSystem) (fp uid ts : String)
    (st : PhotoOrganizerSystem) (item : Item)
    (h : upload_and_process detect sys fp uid ts = (st, Except.ok item)) :
    item.original_filename = basename fp ∧
    item.photo_id = uid ++ "/" ++ basename fp ∧
    item.user_id = uid := by
  cases hd : detect (uid ++ "/" ++ basename fp) with
  | error e =>
    rw [upload_err detect sys fp uid ts e hd] at h
    simp at h
  | ok l =>
    rw [upload_ok detect sys fp uid ts l hd] at h
    have h2 : Except.ok (mkItem uid fp ts l) = Except.ok item :=
      congrArg Prod.snd h
    have h3 : mkItem uid fp ts l = item := by injection h2
    rw [← h3]
    exact ⟨rfl, rfl, rfl⟩

/-- C10 witness: ingesting `dir/b.png` for `u2` stores the record under
`u2/b.png` with `original_filename` equal to `b.png`. -/
theorem c10_witness :
    upload_and_process detA freshSystem "dir/b.png" "u2" "t3"
        = ((upload_and_process detA freshSystem "dir/b.png" "u2" "t3").1,
           Except.ok (mkItem "u2" "dir/b.png" "t3"
             [{ name := "A", confidence := 90 }])) ∧
    (mkItem "u2" "dir/b.png" "t3"
        [{ name := "A", confidence := 90 }]).original_filename
      = basename "dir/b.png" :=
  ⟨rfl,
   (c10_stored_names_are_basename detA freshSystem "dir/b.png" "u2" "t3"
      _ _ rfl).1⟩
